import Mathlib

/-!
Verification of the Troj-MCP (`macro_man`) tool server against its
natural-language specification.  The Python modules under
`src/macro_man/tools` and `src/macro_man/utils` are shallowly embedded:
pure helpers become Lean functions, filesystem and subprocess effects are
made explicit through a small state/oracle model, and Python exceptions
become an `Except` error channel mirroring the exception classes of
`utils/exceptions.py`.
-/

namespace MacroManSpec

/-! ## Python string primitives

The embedding works on `String.data` (the list of characters), matching
Python semantics on the ASCII inputs the tools handle: `len` counts
characters, `str.strip` drops ASCII whitespace at both ends, `str.lower`
lowercases, and `sub in s` is substring containment. -/

/-- Whitespace characters stripped by Python `str.strip()` (ASCII range). -/
def isPySpace (c : Char) : Bool :=
  c == ' ' || c == '\t' || c == '\n' || c == '\x0d' || c == '\x0b' || c == '\x0c'

/-- Embedding of Python `s.strip()`: drop leading and trailing whitespace. -/
def pyStrip (s : String) : String :=
  ⟨((s.data.dropWhile isPySpace).reverse.dropWhile isPySpace).reverse⟩

/-- Embedding of Python `s.lower()` (ASCII case mapping). -/
def pyLower (s : String) : String :=
  ⟨s.data.map Char.toLower⟩

/-- Embedding of the Python containment test `sub in s`. -/
def strContainsSub (s sub : String) : Bool :=
  s.data.tails.any (fun t => sub.data.isPrefixOf t)

/-- Embedding of Python `s.startswith(pre)` (data-level, so that the
kernel can evaluate it). -/
def pyStartsWith (s pre : String) : Bool :=
  pre.data.isPrefixOf s.data

/-! ## The regular expressions used by the tools -/

/-- ASCII letter, the class `[a-zA-Z]`. -/
def isAsciiAlpha (c : Char) : Bool :=
  ( 'a' ≤ c && c ≤ 'z') || ( 'A' ≤ c && c ≤ 'Z')

/-- Character class `[a-zA-Z0-9._%+-]` of the local part of the email regex. -/
def isLocalChar (c : Char) : Bool :=
  isAsciiAlpha c || c.isDigit || c == '.' || c == '_' || c == '%' || c == '+' || c == '-'

/-- Character class `[a-zA-Z0-9.-]` of the domain part of the email regex. -/
def isDomainChar (c : Char) : Bool :=
  isAsciiAlpha c || c.isDigit || c == '.' || c == '-'

/-- Decomposition `D+ . A{2,}` of the part after the `@` in the email
regex: some split point yields a non-empty domain, a dot, and a TLD of at
least two ASCII letters. -/
def domainTailOk (rest : List Char) : Bool :=
  (List.range rest.length).any (fun i =>
    decide (0 < i) && ((rest.take i).all isDomainChar)
      && (rest.get? i == some '.')
      && (rest.drop (i + 1)).all isAsciiAlpha
      && decide (2 ≤ (rest.drop (i + 1)).length))

/-- Embedding of the email regex
`^[a-zA-Z0-9._%+-]+@[a-zA-Z0-9.-]+\.[a-zA-Z]\x7b2,\x7d$` used by
`email.py` (`send_email`) and `calendar.py` (`_validate_emails`). -/
def emailMatch (s : String) : Bool :=
  match s.data.splitOn '@' with
  | [localPart, rest] =>
      decide (0 < localPart.length) && localPart.all isLocalChar && domainTailOk rest
  | _ => false

/-- Embedding of the date-time regex
`^\d\x7b4\x7d-\d\x7b2\x7d-\d\x7b2\x7dT\d\x7b2\x7d:\d\x7b2\x7d:\d\x7b2\x7d(?:Z|[+-]\d\x7b2\x7d:\d\x7b2\x7d)$`
(`iso_like` in `calendar.py`). -/
def isoLikeMatch (s : String) : Bool :=
  match s.data.take 19, s.data.drop 19 with
  | [y1, y2, y3, y4, c1, m1, m2, c2, d1, d2, c3, h1, h2, c4, n1, n2, c5, s1, s2], tz =>
      ([y1, y2, y3, y4, m1, m2, d1, d2, h1, h2, n1, n2, s1, s2].all Char.isDigit)
        && c1 == '-' && c2 == '-' && c3 == 'T' && c4 == ':' && c5 == ':'
        && (match tz with
            | [ 'Z'] => true
            | [sgn, a, b, c, d, e] =>
                (sgn == '+' || sgn == '-') && ([a, b, d, e].all Char.isDigit) && c == ':'
            | _ => false)
  | _, _ => false

/-! ## Error model (`utils/exceptions.py`)

`MacroManError` carries `message` and `error_code`; `ValidationError`
adds `field` and fixes the code to `VALIDATION_ERROR`; `ServiceError`
adds `service` and fixes `SERVICE_ERROR`.  Python `str(e)` returns the
message.  Native Python exceptions that the file tools deliberately let
propagate (`FileNotFoundError`, `PermissionError`, `OSError` such as
`IsADirectoryError`) get their own constructors. -/

structure MMErr where
  message : String
  error_code : String
  field : Option String
  service : Option String
deriving Repr, DecidableEq

/-- Constructor of the base class `MacroManError(message)`;
`error_code` defaults to `GENERIC_ERROR`. -/
def MacroManError (message : String) : MMErr :=
  ⟨message, "GENERIC_ERROR", none, none⟩

/-- Constructor of `ValidationError(message, field)`. -/
def ValidationError (message : String) (field : Option String) : MMErr :=
  ⟨message, "VALIDATION_ERROR", field, none⟩

/-- Constructor of `ServiceError(message, service)`. -/
def ServiceError (message : String) (service : Option String) : MMErr :=
  ⟨message, "SERVICE_ERROR", none, service⟩

/-- Exceptions that can cross a tool boundary: the `MacroManError`
hierarchy plus the native Python file errors the code re-raises as-is. -/
inductive PyExc where
  | mm (e : MMErr)
  | fileNotFoundError (message : String)
  | permissionError (message : String)
  | isADirectoryError (message : String)
deriving Repr, DecidableEq

/-- Embedding of Python `str(e)` on an exception: the message. -/
def PyExc.str : PyExc → String
  | .mm e => e.message
  | .fileNotFoundError m => m
  | .permissionError m => m
  | .isADirectoryError m => m

/-- Convenience predicate: the result is a `ValidationError` naming
field `f`. -/
def isValidationErrOn {α : Type} (r : Except PyExc α) (f : String) : Prop :=
  match r with
  | .error (.mm e) => e.error_code = "VALIDATION_ERROR" ∧ e.field = some f
  | _ => False

instance {α : Type} (r : Except PyExc α) (f : String) :
    Decidable (isValidationErrOn r f) := by
  unfold isValidationErrOn
  match r with
  | .error (.mm e) => exact instDecidableAnd
  | .error (.fileNotFoundError m) => exact instDecidableFalse
  | .error (.permissionError m) => exact instDecidableFalse
  | .error (.isADirectoryError m) => exact instDecidableFalse
  | .ok v => exact instDecidableFalse

/-! ## Basic tools (`tools/basic.py`) -/

/-- Embedding of `greet_user(name)`: Python tests `not name or not
name.strip()` before producing the greeting from the trimmed name. -/
def greet_user (name : String) : Except PyExc String :=
  if name.data.isEmpty || (pyStrip name).data.isEmpty then
    .error (.mm (ValidationError "Name cannot be empty" (some "name")))
  else
    .ok ("Hello, " ++ pyStrip name ++ "! Nice to meet you.")

/-- Embedding of `echo_message(message)`: Python tests only `not message`
(the empty string), then echoes the message verbatim. -/
def echo_message (message : String) : Except PyExc String :=
  if message.data.isEmpty then
    .error (.mm (ValidationError "Message cannot be empty" (some "message")))
  else
    .ok ("Echo: " ++ message)

/-! ## Filesystem model and `tools/file_ops.py`

The filesystem is an association list from path to node; `find?` takes
the first binding, so writing a file conses a fresh binding in front
(shadowing the old one).  A regular file carries its content and a
readability flag (reading an unreadable file is how the native
`PermissionError` of `open` enters the model); a directory carries the
snapshot of entries that `iterdir` would yield, in arbitrary order. -/

/-- Result of `stat`/`iterdir` for one directory entry: its name, the
string form of its path, whether it is a regular file or a directory,
its size and its modification time. -/
structure DirEntry where
  name : String
  epath : String
  is_file : Bool
  is_dir : Bool
  size : Nat
  mtime : Int
deriving Repr, DecidableEq

/-- Filesystem node: a regular file (content, readable flag) or a
directory (its `iterdir` snapshot). -/
inductive Node where
  | file (content : String) (readable : Bool)
  | dir (entries : List DirEntry)
deriving Repr, DecidableEq

/-- Filesystem state: paths bound to nodes, first binding wins. -/
structure FS where
  entries : List (String × Node)
deriving Repr, DecidableEq

/-- Lookup of the node at a path (`Path(p)` resolution). -/
def FS.lookup (fs : FS) (p : String) : Option Node :=
  (fs.entries.find? (fun e => e.1 == p)).map (fun e => e.2)

/-- Embedding of `path.exists()`. -/
def FS.pathExists (fs : FS) (p : String) : Bool :=
  (fs.lookup p).isSome

/-- Embedding of `path.is_file()`. -/
def FS.isFile (fs : FS) (p : String) : Bool :=
  match fs.lookup p with
  | some (.file _ _) => true
  | _ => false

/-- Embedding of `path.is_dir()`. -/
def FS.isDir (fs : FS) (p : String) : Bool :=
  match fs.lookup p with
  | some (.dir _) => true
  | _ => false

/-- Effect of `open(path, "w"); f.write(content)`: bind the path to a
fresh readable file with the given content.  Writing with the default
`newline=None` maps `\n` to `os.linesep`, the identity on the Linux
hosts this server runs on, so the stored content is the argument. -/
def FS.setFile (fs : FS) (p content : String) : FS :=
  ⟨(p, .file content true) :: fs.entries⟩

/-- Universal-newlines translation applied by Python text-mode reading
(`open` with the default `newline=None`): `\x0d\n` and a lone `\x0d` in
the file become `\n`. -/
def univNewlinesGo : Bool → List Char → List Char
  | _, [] => []
  | prevCR, c :: rest =>
      if c == '\x0d' then '\n' :: univNewlinesGo true rest
      else if prevCR && c == '\n' then univNewlinesGo false rest
      else c :: univNewlinesGo false rest

/-- Top-level universal-newlines translation (no pending carriage
return). -/
def univNewlines (l : List Char) : List Char :=
  univNewlinesGo false l

/-- String form of the universal-newlines translation. -/
def pyUnivNewlines (s : String) : String :=
  ⟨univNewlines s.data⟩

/-- Embedding of `read_file(file_path)` from `file_ops.py`: reject a
missing path, then a non-regular file, both as `ValidationError` on
field `file_path`; otherwise `open(..., encoding="utf-8")` — text mode
with the default `newline=None`, so the returned text is the stored
content with universal-newlines translation applied — either returns
that text or raises `PermissionError`, which the handler
`except (ValidationError, FileNotFoundError, PermissionError): raise`
re-raises unwrapped. -/
def read_file (fs : FS) (file_path : String) : Except PyExc String :=
  match fs.lookup file_path with
  | none =>
      .error (.mm (ValidationError ("File does not exist: " ++ file_path)
        (some "file_path")))
  | some (.dir _) =>
      .error (.mm (ValidationError ("Path is not a file: " ++ file_path)
        (some "file_path")))
  | some (.file content readable) =>
      if readable then .ok (pyUnivNewlines content)
      else .error (.permissionError ("Permission denied: " ++ file_path))

/-- Result dictionary of a successful `write_file`. -/
structure WriteResult where
  success : Bool
  file_path : String
  size : Nat
  overwritten : Bool
deriving Repr, DecidableEq

/-- Embedding of `write_file(file_path, content, overwrite)`: reject an
existing target unless `overwrite`; opening a directory for writing
raises `IsADirectoryError`, an `OSError` the handler re-raises as-is;
otherwise write the content and build the result dictionary, whose
`overwritten` field evaluates `path.exists() and overwrite` AFTER the
write.  On success the new filesystem state is returned with the
result. -/
def write_file (fs : FS) (file_path content : String) (overwrite : Bool) :
    Except PyExc (FS × WriteResult) :=
  if fs.pathExists file_path && !overwrite then
    .error (.mm (ValidationError
      ("File already exists: " ++ file_path ++ ". Use overwrite=True to replace it.")
      (some "file_path")))
  else
    match fs.lookup file_path with
    | some (.dir _) => .error (.isADirectoryError file_path)
    | _ =>
        let fs2 := fs.setFile file_path content
        .ok (fs2,
          { success := true
            file_path := file_path
            size := content.length
            overwritten := fs2.pathExists file_path && overwrite })

/-- One dictionary of the `list_directory` result list. -/
structure Item where
  name : String
  path : String
  is_file : Bool
  is_directory : Bool
  size : Option Nat
  modified : Int
deriving Repr, DecidableEq

/-- Conversion of one `iterdir` entry into its result dictionary
(`size` only for regular files, as in the source). -/
def toItem (e : DirEntry) : Item :=
  { name := e.name
    path := e.epath
    is_file := e.is_file
    is_directory := e.is_dir
    size := if e.is_file then some e.size else none
    modified := e.mtime }

/-- Ascending lexicographic order on character lists by code point,
the order Python string comparison uses in `items.sort(key=...)`. -/
def charListLe : List Char → List Char → Bool
  | [], _ => true
  | _ :: _, [] => false
  | a :: as, b :: bs =>
      if a.toNat < b.toNat then true
      else if b.toNat < a.toNat then false
      else charListLe as bs

/-- Comparator of result items by their `name`, the sort key
`lambda x: str(x["name"])` of the source. -/
def itemLe (a b : Item) : Bool :=
  charListLe a.name.data b.name.data

/-- Stable insertion into a sorted list: the new element goes after
every element already ≤ it. -/
def insertSorted (le : α → α → Bool) (a : α) : List α → List α
  | [] => [a]
  | b :: bs => if le b a then b :: insertSorted le a bs else a :: b :: bs

/-- Model of Python `list.sort(key=...)`: a stable sort realized as
left-to-right insertion (kernel-executable, unlike well-founded merge
sort). -/
def pySortBy (le : α → α → Bool) (l : List α) : List α :=
  l.foldl (fun acc a => insertSorted le a acc) []

/-- Embedding of `list_directory(directory_path, include_hidden)`:
reject a missing path or a non-directory as `ValidationError` on field
`directory_path`; otherwise keep the entries whose name does not start
with a dot (all entries when `include_hidden`), build their dictionaries
and sort them ascending by name. -/
def list_directory (fs : FS) (directory_path : String) (include_hidden : Bool) :
    Except PyExc (List Item) :=
  match fs.lookup directory_path with
  | none =>
      .error (.mm (ValidationError
        ("Directory does not exist: " ++ directory_path) (some "directory_path")))
  | some (.file _ _) =>
      .error (.mm (ValidationError
        ("Path is not a directory: " ++ directory_path) (some "directory_path")))
  | some (.dir entries) =>
      .ok (pySortBy itemLe
            ((entries.filter
              (fun e => include_hidden || !(pyStartsWith e.name "."))).map toItem))

/-! ## System tools (`tools/system.py`)

`execute_command` runs inside one `try` block whose handlers are
`except subprocess.TimeoutExpired` and then `except Exception as e:
raise MacroManError(f"Failed to execute command: ...")`.  The
`ValidationError`s raised for an empty or dangerous command are raised
INSIDE that `try`, so the generic handler catches them and re-raises
them wrapped as a plain `MacroManError` (unlike `file_ops.py`, there is
no `except ValidationError: raise` clause here).  The embedding keeps
that wrap explicit.  The returned `Bool` records whether control
reached `subprocess.run`; the oracle `run` supplies the outcome of the
subprocess when it is started. -/

/-- Outcome of `subprocess.run`: completion with a return code and
captured output, or `subprocess.TimeoutExpired`. -/
inductive RunOutcome where
  | completed (return_code : Int) (stdout stderr : String)
  | timedOut
deriving Repr, DecidableEq

/-- Result dictionary of a completed `execute_command`. -/
structure CmdResult where
  command : String
  return_code : Int
  stdout : String
  stderr : String
  success : Bool
deriving Repr, DecidableEq

/-- Deny-list of `execute_command` (`dangerous_commands` in the source). -/
def dangerous_commands : List String :=
  ["rm -rf", "sudo", "su", "chmod 777", "dd if=", "mkfs"]

/-- Effect of the generic `except Exception as e` handler of
`execute_command`: any exception is re-raised as
`MacroManError(f"Failed to execute command: \x7bstr(e)\x7d")`. -/
def execWrap (e : PyExc) : PyExc :=
  .mm (MacroManError ("Failed to execute command: " ++ e.str))

/-- Embedding of `execute_command(command, timeout)`.  The first
component records whether `subprocess.run` was started.  Validation
failures are raised inside the `try`, hence surfaced through
`execWrap`; a timeout raises `MacroManError` directly from its
dedicated handler. -/
def execute_command (run : String → Nat → RunOutcome) (command : String)
    (timeout : Nat) : Bool × Except PyExc CmdResult :=
  if command.data.isEmpty || (pyStrip command).data.isEmpty then
    (false, .error (execWrap
      (.mm (ValidationError "Command cannot be empty" (some "command")))))
  else if dangerous_commands.any
      (fun dangerous => strContainsSub (pyLower command) dangerous) then
    (false, .error (execWrap
      (.mm (ValidationError "Command contains potentially dangerous operations"
        (some "command")))))
  else
    match run command timeout with
    | .completed rc outS errS =>
        (true, .ok { command := command, return_code := rc, stdout := outS,
                     stderr := errS, success := rc == 0 })
    | .timedOut =>
        (true, .error (.mm (MacroManError
          ("Command timed out after " ++ toString timeout ++ " seconds"))))

/-! ## Email tools (`tools/email.py`) -/

/-- Embedding of Python `s.upper()` (ASCII case mapping). -/
def pyUpper (s : String) : String :=
  ⟨s.data.map Char.toUpper⟩

/-- Embedding of `_detect_email_type(text, subject)`: keyword buckets
checked in order over the lowercased concatenation. -/
def _detect_email_type (text : String) (subject : String) : String :=
  let combined := pyLower text ++ " " ++ pyLower subject
  if ["hello", "hi", "hey", "greetings", "good morning", "good afternoon"].any
      (fun word => strContainsSub combined word) then "greeting"
  else if ["meeting", "schedule", "appointment", "call", "discuss"].any
      (fun word => strContainsSub combined word) then "meeting"
  else if ["thank", "thanks", "appreciate", "grateful"].any
      (fun word => strContainsSub combined word) then "thanks"
  else if ["question", "ask", "wonder", "?", "how", "what", "when", "where", "why"].any
      (fun word => strContainsSub combined word) then "question"
  else if ["update", "status", "progress", "report", "inform"].any
      (fun word => strContainsSub combined word) then "update"
  else if ["request", "need", "please", "could you", "would you"].any
      (fun word => strContainsSub combined word) then "request"
  else "general"

/-- Openings of the elaboration templates, by email type. -/
def templateOpening (email_type : String) : String :=
  if email_type == "greeting" then "I hope this email finds you well."
  else if email_type == "meeting" then "I hope you\x27re doing well."
  else if email_type == "thanks" then "I hope this message finds you in good spirits."
  else if email_type == "question" then "I hope you\x27re doing well."
  else if email_type == "update" then "I hope this email finds you well."
  else if email_type == "request" then "I hope you\x27re doing well."
  else "I hope this email finds you well."

/-- Closings of the elaboration templates, by email type. -/
def templateClosing (email_type : String) : String :=
  if email_type == "greeting" then
    "I look forward to hearing from you soon.\n\nBest regards"
  else if email_type == "meeting" then
    "Please let me know if this time works for you, or if you\x27d prefer an alternative time.\n\nBest regards"
  else if email_type == "thanks" then
    "Once again, thank you for your time and consideration.\n\nWarm regards"
  else if email_type == "question" then
    "I appreciate your time and look forward to your response.\n\nBest regards"
  else if email_type == "update" then
    "Please let me know if you need any additional information or have any questions.\n\nBest regards"
  else if email_type == "request" then
    "I understand this may require some time, and I appreciate your consideration.\n\nThank you for your time and assistance.\n\nBest regards"
  else "I look forward to hearing from you.\n\nBest regards"

/-- Expansion sentences of `_expand_brief_text`, by email type. -/
def expansionOf (email_type : String) : String :=
  if email_type == "greeting" then "I wanted to reach out and connect with you. "
  else if email_type == "meeting" then "I\x27d like to schedule a meeting to discuss this further. "
  else if email_type == "thanks" then "I wanted to express my sincere gratitude. "
  else if email_type == "question" then "I have a question that I hope you can help me with. "
  else if email_type == "update" then "I wanted to provide you with an update on this matter. "
  else if email_type == "request" then "I have a request that I hope you can assist me with. "
  else "I wanted to share some information with you. "

/-- Additional context of `_add_additional_context`, by email type. -/
def _add_additional_context (email_type : String) : String :=
  if email_type == "greeting" then
    " I hope we can connect and discuss potential opportunities for collaboration."
  else if email_type == "meeting" then
    " Please let me know your availability and I\x27ll send over a calendar invite."
  else if email_type == "thanks" then
    " Your assistance has been invaluable, and I truly appreciate your time and effort."
  else if email_type == "question" then
    " I believe your expertise in this area would be very helpful."
  else if email_type == "update" then
    " I\x27ll continue to keep you informed as more information becomes available."
  else if email_type == "request" then
    " I understand this may require some time, and I\x27m happy to provide any additional information you might need."
  else " Please let me know if you have any questions or need any clarification."

/-- Capitalization step of `_expand_brief_text`: for a non-empty text,
uppercase the first character when the length exceeds one, otherwise
uppercase the whole (single-character) text. -/
def pyCapitalizeFirst (text : String) : String :=
  if text.data.isEmpty then text
  else if 1 < text.length then
    match text.data with
    | c :: rest => ⟨c.toUpper :: rest⟩
    | [] => text
  else pyUpper text

/-- Embedding of `_expand_brief_text(text, email_type)`: prepend the
type-specific expansion to the capitalized text and, when the text is
shorter than 20 characters, append the additional context. -/
def _expand_brief_text (text : String) (email_type : String) : String :=
  let text2 := pyCapitalizeFirst text
  let expanded := expansionOf email_type ++ text2
  if text2.length < 20 then expanded ++ _add_additional_context email_type
  else expanded

/-- Embedding of `_generate_elaborated_content(brief_text, email_type,
subject)`: augment the text with the subject when one is given, then
join opening, blank, expanded text, blank, closing with newlines. -/
def _generate_elaborated_content (brief_text : String) (email_type : String)
    (subject : String) : String :=
  let brief2 := if subject.data.isEmpty then brief_text
                else brief_text ++ " (Subject: " ++ subject ++ ")"
  String.intercalate "\n"
    [templateOpening email_type, "", _expand_brief_text brief2 email_type, "",
     templateClosing email_type]

/-- Embedding of `elaborate_email_body(brief_text, subject)`: reject an
empty or whitespace-only text, then detect the type on the stripped
text and generate the elaborated content. -/
def elaborate_email_body (brief_text : String) (subject : String) :
    Except PyExc String :=
  if brief_text.data.isEmpty || (pyStrip brief_text).data.isEmpty then
    .error (.mm (ValidationError "Brief text cannot be empty" (some "brief_text")))
  else
    let bt := pyStrip brief_text
    .ok (_generate_elaborated_content bt (_detect_email_type bt subject) subject)

/-- Parsed JSON body returned by the email backend on HTTP 200 — the
keys `send_email` consults, each possibly absent (`dict.get`). -/
structure EmailJson where
  success : Option Bool
  message : Option String
  messageId : Option String
deriving Repr, DecidableEq

/-- Result dictionary of a successful `send_email`. -/
structure EmailResult where
  success : Bool
  message : String
  messageId : Option String
  recipient : String
  subject : String
  body_length : Nat
  elaborated : Bool
  details : EmailJson
deriving Repr, DecidableEq

/-- Embedding of `send_email(to, subject, body, elaborate)` (the `to`
argument is named `toAddr` because `to` is reserved in Lean).  The
oracle `svc` stands for `_send_email_via_service(to, subject, body)`:
it yields the parsed 200-response JSON or the `MacroManError` that
function raises on any non-200/transport failure.  Validation precedes
any call of the oracle; an elaboration failure and a service failure
are wrapped in `MacroManError` with the respective message prefixes of
the source. -/
def send_email (svc : String → String → String → Except PyExc EmailJson)
    (toAddr subject body : String) (elaborate : Bool) : Except PyExc EmailResult :=
  if toAddr.data.isEmpty || (pyStrip toAddr).data.isEmpty then
    .error (.mm (ValidationError "Recipient email address is required" (some "to")))
  else if subject.data.isEmpty || (pyStrip subject).data.isEmpty then
    .error (.mm (ValidationError "Email subject is required" (some "subject")))
  else if body.data.isEmpty || (pyStrip body).data.isEmpty then
    .error (.mm (ValidationError "Email body is required" (some "body")))
  else
    let to2 := pyStrip toAddr
    let subject2 := pyStrip subject
    let body2 := pyStrip body
    if !(emailMatch to2) then
      .error (.mm (ValidationError "Invalid email address format" (some "to")))
    else
      let ebody : Except PyExc String :=
        if elaborate then
          match elaborate_email_body body2 subject2 with
          | .ok eb => .ok eb
          | .error e => .error (.mm (MacroManError
              ("Failed to elaborate email body: " ++ e.str)))
        else .ok body2
      match ebody with
      | .error e => .error e
      | .ok elaborated_body =>
          match svc to2 subject2 elaborated_body with
          | .error e => .error (.mm (MacroManError ("Failed to send email: " ++ e.str)))
          | .ok email_result =>
              .ok { success := email_result.success.getD false
                    message := email_result.message.getD "Email sending completed"
                    messageId := email_result.messageId
                    recipient := to2
                    subject := subject2
                    body_length := elaborated_body.length
                    elaborated := elaborate
                    details := email_result }

/-! ## Tool registration wrappers

The `@mcp_server.tool()` wrappers `_send_email` and `_schedule_meet`
serialize a success result, and turn ANY exception into the JSON object
`\x7b"success": False, "error": str(e), "message": <fixed text>\x7d`. -/

/-- Error object built by the `except` branch of a tool wrapper. -/
structure ToolErrorPayload where
  success : Bool
  error : String
  message : String
deriving Repr, DecidableEq

/-- Output of a tool wrapper: a serialized success result or the
error object. -/
inductive ToolOutput (α : Type) where
  | ok (r : α)
  | err (p : ToolErrorPayload)
deriving Repr, DecidableEq

/-- Error object of the `_send_email` wrapper for an exception `e`. -/
def sendEmailFailurePayload (e : PyExc) : ToolErrorPayload :=
  { success := false, error := e.str, message := "Failed to send email" }

/-- Embedding of the registered tool `_send_email`. -/
def _send_email_tool (svc : String → String → String → Except PyExc EmailJson)
    (toAddr subject body : String) (elaborate : Bool) : ToolOutput EmailResult :=
  match send_email svc toAddr subject body elaborate with
  | .ok r => .ok r
  | .error e => .err (sendEmailFailurePayload e)

/-! ## Calendar tools (`tools/calendar.py`)

The service responses of `/schedule-meet` and `/list-events` are passed
through untouched, so the model keeps them opaque as strings. -/

/-- Opaque passthrough JSON of the calendar service. -/
abbrev CalJson := String

/-- Embedding of the shared `try: return <service call> except Exception
as e: raise MacroManError(prefix + str(e))` pattern that closes
`schedule_meet` and `list_events`: a success passes through, any
exception is re-raised wrapped as a generic `MacroManError`. -/
def wrapSvcErr {α : Type} (pre : String) (r : Except PyExc α) : Except PyExc α :=
  match r with
  | .ok j => .ok j
  | .error e => .error (.mm (MacroManError (pre ++ e.str)))

/-- Embedding of `_validate_emails(attendees)`: each attendee must be a
non-empty string matching the email regex after trimming; the cleaned
(trimmed) list is returned, the first offender raises. -/
def _validate_emails : List String → Except PyExc (List String)
  | [] => .ok []
  | email :: rest =>
      if email.data.isEmpty || (pyStrip email).data.isEmpty then
        .error (.mm (ValidationError "Attendee email must be a non-empty string"
          (some "attendees")))
      else if !(emailMatch (pyStrip email)) then
        .error (.mm (ValidationError "Invalid attendee email format"
          (some "attendees")))
      else
        match _validate_emails rest with
        | .ok cleaned => .ok (pyStrip email :: cleaned)
        | .error e => .error e

/-- Sparse payload POSTed to `/schedule-meet` (the `end` key is called
`endT` because `end` is reserved in Lean). -/
structure MeetPayload where
  title : String
  start : String
  endT : String
  description : Option String
  timeZone : Option String
  attendees : Option (List String)
  sendUpdates : Option String
deriving Repr, DecidableEq

/-- Embedding of `schedule_meet(title, description, start, end,
timeZone, attendees, sendUpdates)` (the `end` argument is named `endT`
because `end` is reserved in Lean).  The oracle `svc` stands for
`_schedule_meet_via_service(payload)`.  Validation order follows the
source: title, start and end required; `iso_like` on the trimmed start
then end; `sendUpdates` in its enumerated set; attendees, if given, a
non-empty list of valid emails.  Optional payload keys are added only
when present and non-blank; any service exception is wrapped as
`MacroManError("Failed to schedule meeting: ...")`. -/
def schedule_meet (svc : MeetPayload → Except PyExc CalJson)
    (title : String) (description : Option String) (start endT : String)
    (timeZone : Option String) (attendees : Option (List String))
    (sendUpdates : Option String) : Except PyExc CalJson :=
  if title.data.isEmpty || (pyStrip title).data.isEmpty then
    .error (.mm (ValidationError "Title is required" (some "title")))
  else if start.data.isEmpty || (pyStrip start).data.isEmpty then
    .error (.mm (ValidationError "Start datetime is required" (some "start")))
  else if endT.data.isEmpty || (pyStrip endT).data.isEmpty then
    .error (.mm (ValidationError "End datetime is required" (some "end")))
  else if !(isoLikeMatch (pyStrip start)) then
    .error (.mm (ValidationError "start must be ISO8601 like 2025-10-21T10:00:00Z"
      (some "start")))
  else if !(isoLikeMatch (pyStrip endT)) then
    .error (.mm (ValidationError "end must be ISO8601 like 2025-10-21T10:30:00Z"
      (some "end")))
  else if (match sendUpdates with
           | some s => !(["all", "externalOnly", "none"].contains s)
           | none => false) then
    .error (.mm (ValidationError "sendUpdates must be one of: all, externalOnly, none"
      (some "sendUpdates")))
  else
    let checkedAttendees : Except PyExc (Option (List String)) :=
      match attendees with
      | none => .ok none
      | some atts =>
          if atts.length == 0 then
            .error (.mm (ValidationError "attendees must be a non-empty list of emails"
              (some "attendees")))
          else
            match _validate_emails atts with
            | .ok cleaned => .ok (some cleaned)
            | .error e => .error e
    match checkedAttendees with
    | .error e => .error e
    | .ok cleaned_attendees =>
        let payload : MeetPayload :=
          { title := pyStrip title
            start := pyStrip start
            endT := pyStrip endT
            description := match description with
              | some d => if (pyStrip d).data.isEmpty then none else some (pyStrip d)
              | none => none
            timeZone := match timeZone with
              | some t => if (pyStrip t).data.isEmpty then none else some (pyStrip t)
              | none => none
            attendees := cleaned_attendees
            sendUpdates := sendUpdates }
        wrapSvcErr "Failed to schedule meeting: " (svc payload)

/-- Sparse payload POSTed to `/list-events`. -/
structure ListEventsPayload where
  timeMin : String
  timeMax : String
  maxResults : Option Int
  q : Option String
deriving Repr, DecidableEq

/-- Embedding of `list_events(timeMin, timeMax, maxResults, q)`.  The
oracle `svc` stands for `_list_events_via_service(payload)`.  Both time
bounds are required and checked against `iso_like` after trimming;
`maxResults`, when given, must be positive; `q` is added to the payload
only when non-blank; any service exception is wrapped as
`MacroManError("Failed to list events: ...")`. -/
def list_events (svc : ListEventsPayload → Except PyExc CalJson)
    (timeMin timeMax : String) (maxResults : Option Int) (q : Option String) :
    Except PyExc CalJson :=
  if timeMin.data.isEmpty || (pyStrip timeMin).data.isEmpty then
    .error (.mm (ValidationError "timeMin is required" (some "timeMin")))
  else if timeMax.data.isEmpty || (pyStrip timeMax).data.isEmpty then
    .error (.mm (ValidationError "timeMax is required" (some "timeMax")))
  else if !(isoLikeMatch (pyStrip timeMin)) then
    .error (.mm (ValidationError "timeMin must be ISO8601 like 2025-10-20T00:00:00Z"
      (some "timeMin")))
  else if !(isoLikeMatch (pyStrip timeMax)) then
    .error (.mm (ValidationError "timeMax must be ISO8601 like 2025-10-27T23:59:59Z"
      (some "timeMax")))
  else if (match maxResults with
           | some n => decide (n ≤ 0)
           | none => false) then
    .error (.mm (ValidationError "maxResults must be a positive integer"
      (some "maxResults")))
  else
    let payload : ListEventsPayload :=
      { timeMin := pyStrip timeMin
        timeMax := pyStrip timeMax
        maxResults := maxResults
        q := match q with
          | some s => if (pyStrip s).data.isEmpty then none else some (pyStrip s)
          | none => none }
    wrapSvcErr "Failed to list events: " (svc payload)

/-- Error object of the `_schedule_meet` wrapper for an exception `e`. -/
def scheduleMeetFailurePayload (e : PyExc) : ToolErrorPayload :=
  { success := false, error := e.str, message := "Failed to schedule meeting" }

/-- Embedding of the registered tool `_schedule_meet`. -/
def _schedule_meet_tool (svc : MeetPayload → Except PyExc CalJson)
    (title : String) (description : Option String) (start endT : String)
    (timeZone : Option String) (attendees : Option (List String))
    (sendUpdates : Option String) : ToolOutput CalJson :=
  match schedule_meet svc title description start endT timeZone attendees sendUpdates with
  | .ok j => .ok j
  | .error e => .err (scheduleMeetFailurePayload e)

/-! ## Concrete fixtures used to instantiate the theorems -/

/-- Stub email backend answering HTTP 200 with
`\x7b"success": true, "messageId": "m1"\x7d` to every request. -/
def svc0 : String → String → String → Except PyExc EmailJson :=
  fun _ _ _ => .ok { success := some true, message := none, messageId := some "m1" }

/-- Stub subprocess runner: every command completes with return code 0. -/
def run0 : String → Nat → RunOutcome :=
  fun _ _ => .completed 0 "" ""

/-- Stub calendar backend answering every `/list-events` request. -/
def svcCal0 : ListEventsPayload → Except PyExc CalJson :=
  fun _ => .ok "resp"

/-- Stub calendar backend answering every `/schedule-meet` request. -/
def svcMeet0 : MeetPayload → Except PyExc CalJson :=
  fun _ => .ok "meet"

/-- Fixture directory entries: one hidden file, two visible ones given
out of name order. -/
def entsC9 : List DirEntry :=
  [⟨".hidden", "d/.hidden", true, false, 1, 10⟩,
   ⟨"b.txt", "d/b.txt", true, false, 2, 20⟩,
   ⟨"a.txt", "d/a.txt", true, false, 3, 30⟩]

/-- Fixture filesystem: a directory `d` with `entsC9`, a readable file,
an unreadable file, and nothing else. -/
def fs0 : FS :=
  ⟨[("d", .dir entsC9), ("a.txt", .file "old" true), ("locked.txt", .file "secret" false)]⟩

/-- Decidable equality of `Except` values, used to evaluate the
embedding at concrete inputs. -/
instance {ε α : Type} [DecidableEq ε] [DecidableEq α] : DecidableEq (Except ε α) :=
  fun a b =>
    match a, b with
    | .ok x, .ok y =>
        if h : x = y then isTrue (by rw [h])
        else isFalse (fun hc => h (Except.ok.inj hc))
    | .error x, .error y =>
        if h : x = y then isTrue (by rw [h])
        else isFalse (fun hc => h (Except.error.inj hc))
    | .ok _, .error _ => isFalse (fun hc => Except.noConfusion hc)
    | .error _, .ok _ => isFalse (fun hc => Except.noConfusion hc)

/-! ## Helper lemmas -/

/-- Emptiness transfers from a string to its trimmed form. -/
theorem pyStrip_data_isEmpty_of (s : String) (h : s.data.isEmpty = true) :
    (pyStrip s).data.isEmpty = true := by
  rcases s with ⟨l⟩
  cases l with
  | nil => rfl
  | cons c cs => simp at h

/-- Non-emptiness transfers from the trimmed form back to the string. -/
theorem data_isEmpty_false_of_pyStrip (s : String)
    (h : (pyStrip s).data.isEmpty = false) : s.data.isEmpty = false := by
  cases he : s.data.isEmpty with
  | false => rfl
  | true => rw [pyStrip_data_isEmpty_of s he] at h; cases h

/-- Lookup after `setFile` finds the freshly written readable file. -/
theorem FS.lookup_setFile (fs : FS) (p c : String) :
    (fs.setFile p c).lookup p = some (.file c true) := by
  simp [FS.setFile, FS.lookup, List.find?_cons_of_pos]

/-- The path exists after `setFile`. -/
theorem FS.pathExists_setFile (fs : FS) (p c : String) :
    (fs.setFile p c).pathExists p = true := by
  simp [FS.pathExists, FS.lookup_setFile]

/-- Inversion of a successful `write_file`: the state is `setFile` and
the result dictionary is determined, with `overwritten` equal to the
`overwrite` argument. -/
theorem write_file_ok (fs : FS) (p c : String) (ow : Bool) (fs2 : FS)
    (r : WriteResult) (h : write_file fs p c ow = .ok (fs2, r)) :
    fs2 = fs.setFile p c ∧
      r = { success := true, file_path := p, size := c.length, overwritten := ow } := by
  unfold write_file at h
  split at h
  · cases h
  · split at h
    · cases h
    · rw [Except.ok.injEq, Prod.mk.injEq] at h
      obtain ⟨h1, h2⟩ := h
      refine ⟨h1.symm, ?_⟩
      rw [← h2]
      simp [FS.pathExists_setFile]

/-- Texts without a carriage return pass the translation loop
unchanged when no carriage return is pending. -/
theorem univNewlinesGo_of_no_cr (l : List Char) (h : ∀ ch ∈ l, ch ≠ '\x0d') :
    univNewlinesGo false l = l := by
  induction l with
  | nil => rfl
  | cons c rest ih =>
    have hc : (c == '\x0d') = false :=
      beq_eq_false_iff_ne.mpr (h c (List.mem_cons_self c rest))
    have hr := ih (fun ch hm => h ch (List.mem_cons_of_mem c hm))
    unfold univNewlinesGo
    rw [hc]
    simp [hr]

/-- Texts without a carriage return are fixed points of the
universal-newlines translation. -/
theorem univNewlines_of_no_cr (l : List Char) (h : ∀ ch ∈ l, ch ≠ '\x0d') :
    univNewlines l = l := by
  unfold univNewlines
  exact univNewlinesGo_of_no_cr l h

/-- Totality of the lexicographic comparator. -/
theorem charListLe_total (a b : List Char) :
    (charListLe a b || charListLe b a) = true := by
  induction a generalizing b with
  | nil => simp [charListLe]
  | cons x xs ih =>
    cases b with
    | nil => simp [charListLe]
    | cons y ys =>
      simp only [charListLe]
      by_cases h1 : x.toNat < y.toNat
      · simp [h1]
      · by_cases h2 : y.toNat < x.toNat
        · simp [h1, h2]
        · simp only [h1, h2, if_false, if_true, if_neg, ite_false]
          simpa using ih ys

/-- Transitivity of the lexicographic comparator. -/
theorem charListLe_trans (a b c : List Char) (hab : charListLe a b = true)
    (hbc : charListLe b c = true) : charListLe a c = true := by
  induction a generalizing b c with
  | nil => simp [charListLe]
  | cons x xs ih =>
    cases b with
    | nil => simp [charListLe] at hab
    | cons y ys =>
      cases c with
      | nil => simp [charListLe] at hbc
      | cons z zs =>
        simp only [charListLe] at hab hbc ⊢
        by_cases h1 : x.toNat < y.toNat <;> by_cases h2 : y.toNat < z.toNat
        · have : x.toNat < z.toNat := Nat.lt_trans h1 h2
          simp [this]
        · by_cases h3 : z.toNat < y.toNat
          · simp [h2, h3] at hbc
          · have hyz : y.toNat = z.toNat := Nat.le_antisymm (Nat.le_of_not_lt h3) (Nat.le_of_not_lt h2)
            have : x.toNat < z.toNat := hyz ▸ h1
            simp [this]
        · by_cases h3 : y.toNat < x.toNat
          · simp [h1, h3] at hab
          · have hxy : x.toNat = y.toNat := Nat.le_antisymm (Nat.le_of_not_lt h3) (Nat.le_of_not_lt h1)
            have : x.toNat < z.toNat := hxy ▸ h2
            simp [this]
        · by_cases h3 : y.toNat < x.toNat
          · simp [h1, h3] at hab
          · by_cases h4 : z.toNat < y.toNat
            · simp [h2, h4] at hbc
            · have hxy : x.toNat = y.toNat := Nat.le_antisymm (Nat.le_of_not_lt h3) (Nat.le_of_not_lt h1)
              have hyz : y.toNat = z.toNat := Nat.le_antisymm (Nat.le_of_not_lt h4) (Nat.le_of_not_lt h2)
              have h5 : ¬ x.toNat < z.toNat := by omega
              have h6 : ¬ z.toNat < x.toNat := by omega
              simp only [h1, h3, if_neg, ite_false] at hab
              simp only [h2, h4, if_neg, ite_false] at hbc
              simp only [h5, h6, if_neg, ite_false]
              exact ih ys zs hab hbc

/-- Totality of the item comparator. -/
theorem itemLe_total (a b : Item) : (itemLe a b || itemLe b a) = true :=
  charListLe_total a.name.data b.name.data

/-- Transitivity of the item comparator. -/
theorem itemLe_trans (a b c : Item) (hab : itemLe a b = true)
    (hbc : itemLe b c = true) : itemLe a c = true :=
  charListLe_trans a.name.data b.name.data c.name.data hab hbc

/-- Insertion yields a permutation of consing the element on. -/
theorem insertSorted_perm {α : Type} (le : α → α → Bool) (a : α) (l : List α) :
    (insertSorted le a l).Perm (a :: l) := by
  induction l with
  | nil => exact List.Perm.refl _
  | cons b bs ih =>
    unfold insertSorted
    by_cases h : le b a = true
    · rw [if_pos h]
      exact List.Perm.trans (List.Perm.cons b ih) (List.Perm.swap a b bs)
    · rw [if_neg h]

/-- Membership in an insertion. -/
theorem mem_insertSorted {α : Type} (le : α → α → Bool) (a x : α) (l : List α) :
    x ∈ insertSorted le a l ↔ x = a ∨ x ∈ l := by
  rw [(insertSorted_perm le a l).mem_iff, List.mem_cons]

/-- The insertion sort permutes its input. -/
theorem pySortBy_perm {α : Type} (le : α → α → Bool) (l : List α) :
    (pySortBy le l).Perm l := by
  suffices h : ∀ acc : List α,
      (l.foldl (fun acc a => insertSorted le a acc) acc).Perm (acc ++ l) by
    simpa [pySortBy] using h []
  induction l with
  | nil => intro acc; simp
  | cons x xs ih =>
    intro acc
    simp only [List.foldl_cons]
    refine List.Perm.trans (ih (insertSorted le x acc)) ?_
    refine List.Perm.trans ((insertSorted_perm le x acc).append_right xs) ?_
    exact List.perm_middle.symm

/-- Insertion preserves sortedness for a transitive total comparator. -/
theorem insertSorted_pairwise {α : Type} (le : α → α → Bool)
    (htrans : ∀ a b c, le a b = true → le b c = true → le a c = true)
    (htotal : ∀ a b, (le a b || le b a) = true)
    (a : α) (l : List α) (hl : l.Pairwise (fun x y => le x y = true)) :
    (insertSorted le a l).Pairwise (fun x y => le x y = true) := by
  induction l with
  | nil => simp [insertSorted]
  | cons b bs ih =>
    rw [List.pairwise_cons] at hl
    obtain ⟨hb, hbs⟩ := hl
    unfold insertSorted
    by_cases h : le b a = true
    · rw [if_pos h, List.pairwise_cons]
      refine ⟨?_, ih hbs⟩
      intro x hx
      rcases (mem_insertSorted le a x bs).mp hx with rfl | hxbs
      · exact h
      · exact hb x hxbs
    · rw [if_neg h]
      have hab : le a b = true := by
        have ht := htotal a b
        cases hab : le a b
        · rw [hab, Bool.false_or] at ht; exact absurd ht h
        · rfl
      rw [List.pairwise_cons]
      refine ⟨?_, List.pairwise_cons.mpr ⟨hb, hbs⟩⟩
      intro x hx
      rcases List.mem_cons.mp hx with rfl | hxbs
      · exact hab
      · exact htrans a b x hab (hb x hxbs)

/-- The insertion sort sorts, for a transitive total comparator. -/
theorem pySortBy_pairwise {α : Type} (le : α → α → Bool)
    (htrans : ∀ a b c, le a b = true → le b c = true → le a c = true)
    (htotal : ∀ a b, (le a b || le b a) = true) (l : List α) :
    (pySortBy le l).Pairwise (fun x y => le x y = true) := by
  suffices h : ∀ acc : List α, acc.Pairwise (fun x y => le x y = true) →
      (l.foldl (fun acc a => insertSorted le a acc) acc).Pairwise
        (fun x y => le x y = true) from h [] List.Pairwise.nil
  induction l with
  | nil => intro acc hacc; simpa using hacc
  | cons x xs ih =>
    intro acc hacc
    simp only [List.foldl_cons]
    exact ih _ (insertSorted_pairwise le htrans htotal x acc hacc)

/-- Matching strings of the date-time pattern are non-empty. -/
theorem isoLikeMatch_data_ne_empty (s : String) (h : isoLikeMatch s = true) :
    s.data.isEmpty = false := by
  rcases s with ⟨l⟩
  cases l with
  | nil => simp [isoLikeMatch] at h
  | cons c cs => rfl

/-! ## Claim theorems -/

/-- C3: for every command containing a dangerous substring
(case-insensitively), `execute_command` never starts a subprocess; but
the error surfaced at the failing input `"sudo ls"` is a generic
`MacroManError` with code `GENERIC_ERROR` and no field — NOT the
`ValidationError` on field `command` that the claim (and the repo's own
tests, `tests/test_system_tools.py:170-185`) expect, because the
`except Exception` handler swallows the `ValidationError` raised by the
deny-list check and re-raises it wrapped. -/
theorem C3_execute_command_dangerous :
    (∀ (run : String → Nat → RunOutcome) (command : String) (timeout : Nat),
        dangerous_commands.any
          (fun dangerous => strContainsSub (pyLower command) dangerous) = true →
        (execute_command run command timeout).1 = false)
    ∧ (∀ run : String → Nat → RunOutcome,
        execute_command run "sudo ls" 30 =
          (false, .error (.mm
            { message := "Failed to execute command: Command contains potentially dangerous operations",
              error_code := "GENERIC_ERROR", field := none, service := none }))) := by
  constructor
  · intro run command timeout h
    unfold execute_command
    by_cases h1 : command.data.isEmpty || (pyStrip command).data.isEmpty
    · simp [h1]
    · simp [h1, h]
  · intro run
    rfl

/-- Witness instantiating `C3_execute_command_dangerous` at the failing
input `"sudo ls"` with a concrete runner. -/
theorem C3_execute_command_dangerous_witness :
    (execute_command run0 "sudo ls" 30).1 = false ∧
    execute_command run0 "sudo ls" 30 =
      (false, .error (.mm
        { message := "Failed to execute command: Command contains potentially dangerous operations",
          error_code := "GENERIC_ERROR", field := none, service := none })) :=
  ⟨C3_execute_command_dangerous.1 run0 "sudo ls" 30 (by decide),
   C3_execute_command_dangerous.2 run0⟩

/-- C4: on a path bound to an existing regular file, `write_file`
without `overwrite` fails with a `ValidationError` on `file_path`
(returning no new filesystem state, so the old content is untouched),
while `overwrite=true` succeeds, the resulting state holds exactly the
supplied content at the path, and reading it back yields that content
modulo the universal-newlines translation of text-mode reading. -/
theorem C4_write_file_existing (fs : FS) (p c content : String) (readable : Bool)
    (h : fs.lookup p = some (.file content readable)) :
    write_file fs p c false = .error (.mm (ValidationError
        ("File already exists: " ++ p ++ ". Use overwrite=True to replace it.")
        (some "file_path")))
    ∧ write_file fs p c true = .ok (fs.setFile p c,
        { success := true, file_path := p, size := c.length, overwritten := true })
    ∧ (fs.setFile p c).lookup p = some (.file c true)
    ∧ read_file (fs.setFile p c) p = .ok (pyUnivNewlines c) := by
  have hex : fs.pathExists p = true := by simp [FS.pathExists, h]
  refine ⟨?_, ?_, FS.lookup_setFile fs p c, ?_⟩
  · unfold write_file
    simp [hex]
  · unfold write_file
    simp [hex, h, FS.pathExists_setFile]
  · unfold read_file
    rw [FS.lookup_setFile]
    rfl

/-- Witness instantiating `C4_write_file_existing` on the fixture file
`a.txt` of `fs0`. -/
theorem C4_write_file_existing_witness :
    write_file fs0 "a.txt" "new" false = .error (.mm (ValidationError
        ("File already exists: " ++ "a.txt" ++ ". Use overwrite=True to replace it.")
        (some "file_path")))
    ∧ write_file fs0 "a.txt" "new" true = .ok (fs0.setFile "a.txt" "new",
        { success := true, file_path := "a.txt", size := "new".length, overwritten := true })
    ∧ (fs0.setFile "a.txt" "new").lookup "a.txt" = some (.file "new" true)
    ∧ read_file (fs0.setFile "a.txt" "new") "a.txt" = .ok (pyUnivNewlines "new") :=
  C4_write_file_existing fs0 "a.txt" "new" "old" true (by decide)

/-- C5 counterexample: the round trip is not byte-for-byte for every
content.  Writing `"a\x0db"` succeeds, but reading it back yields
`"a\nb"`, because text-mode reading (`newline=None`) translates the
carriage return to `\n`. -/
theorem C5_counterexample :
    write_file fs0 "r.txt" "a\x0db" false =
      .ok (fs0.setFile "r.txt" "a\x0db",
        { success := true, file_path := "r.txt", size := 3, overwritten := false })
    ∧ read_file (fs0.setFile "r.txt" "a\x0db") "r.txt" = .ok "a\nb"
    ∧ ("a\nb" : String) ≠ "a\x0db" := by
  refine ⟨by decide, by decide, by decide⟩

/-- C5 amended: a successful `write_file` followed by `read_file` on
the same path returns the written content with the universal-newlines
translation of text-mode reading applied (`\x0d\n` and lone `\x0d`
become `\n`); for every content containing no carriage return the
round trip returns the original content byte-for-byte. -/
theorem C5_write_read_round_trip (fs : FS) (p c : String) (ow : Bool) (fs2 : FS)
    (r : WriteResult) (h : write_file fs p c ow = .ok (fs2, r)) :
    read_file fs2 p = .ok (pyUnivNewlines c)
    ∧ ((∀ ch ∈ c.data, ch ≠ '\x0d') → read_file fs2 p = .ok c) := by
  obtain ⟨h1, -⟩ := write_file_ok fs p c ow fs2 r h
  subst h1
  have hread : read_file (fs.setFile p c) p = .ok (pyUnivNewlines c) := by
    unfold read_file
    rw [FS.lookup_setFile]
    rfl
  refine ⟨hread, fun hcr => ?_⟩
  rw [hread, Except.ok.injEq]
  unfold pyUnivNewlines
  rw [univNewlines_of_no_cr c.data hcr]

/-- Witness instantiating `C5_write_read_round_trip` on a fresh path of
`fs0` with a carriage-return-free content. -/
theorem C5_write_read_round_trip_witness :
    read_file (fs0.setFile "b.txt" "hello") "b.txt" = .ok (pyUnivNewlines "hello")
    ∧ read_file (fs0.setFile "b.txt" "hello") "b.txt" = .ok "hello" :=
  have h := C5_write_read_round_trip fs0 "b.txt" "hello" false
    (fs0.setFile "b.txt" "hello")
    { success := true, file_path := "b.txt", size := 5, overwritten := false }
    (by decide)
  ⟨h.1, h.2 (by decide)⟩

/-- C10: on every successful `write_file`, the `overwritten` field of
the result equals the `overwrite` argument, because it evaluates
`path.exists() and overwrite` after the write, when the path
necessarily exists. -/
theorem C10_overwritten_equals_overwrite (fs : FS) (p c : String) (ow : Bool)
    (fs2 : FS) (r : WriteResult) (h : write_file fs p c ow = .ok (fs2, r)) :
    r.overwritten = ow := by
  obtain ⟨-, h2⟩ := write_file_ok fs p c ow fs2 r h
  rw [h2]

/-- Witness instantiating `C10_overwritten_equals_overwrite` at a path
where no file existed before the call, with `overwrite=true`. -/
theorem C10_overwritten_equals_overwrite_witness :
    ({ success := true, file_path := "c.txt", size := 1, overwritten := true }
      : WriteResult).overwritten = true :=
  C10_overwritten_equals_overwrite fs0 "c.txt" "x" true (fs0.setFile "c.txt" "x")
    { success := true, file_path := "c.txt", size := 1, overwritten := true }
    (by decide)

/-- C6 counterexample: on a missing path, `read_file` raises a
`ValidationError` (code `VALIDATION_ERROR`, field `file_path`), the
very same error kind as the not-a-regular-file case — there is no
distinct NotFound error kind in the code (`utils/exceptions.py` defines
none), contrary to the claim. -/
theorem C6_counterexample :
    read_file fs0 "missing.txt" = .error (.mm (ValidationError
        "File does not exist: missing.txt" (some "file_path")))
    ∧ read_file fs0 "d" = .error (.mm (ValidationError
        "Path is not a file: d" (some "file_path")))
    ∧ (ValidationError "File does not exist: missing.txt" (some "file_path")).error_code
        = (ValidationError "Path is not a file: d" (some "file_path")).error_code := by
  refine ⟨by decide, by decide, rfl⟩

/-- C6 amended: `read_file` fails with a `ValidationError` on field
`file_path` both when the path does not exist and when it is not a
regular file; on a readable file it returns the content as text-mode
reading yields it (universal-newlines translation applied), and the
native `PermissionError` of `open` propagates unwrapped. -/
theorem C6_read_file_behaviour (fs : FS) (p : String) :
    (fs.lookup p = none → read_file fs p = .error (.mm (ValidationError
        ("File does not exist: " ++ p) (some "file_path"))))
    ∧ (∀ entries, fs.lookup p = some (.dir entries) →
        read_file fs p = .error (.mm (ValidationError
          ("Path is not a file: " ++ p) (some "file_path"))))
    ∧ (∀ content, fs.lookup p = some (.file content true) →
        read_file fs p = .ok (pyUnivNewlines content))
    ∧ (∀ content, fs.lookup p = some (.file content false) →
        read_file fs p = .error (.permissionError ("Permission denied: " ++ p))) := by
  refine ⟨?_, ?_, ?_, ?_⟩
  · intro h; unfold read_file; rw [h]
  · intro entries h; unfold read_file; rw [h]
  · intro content h; unfold read_file; rw [h]; rfl
  · intro content h; unfold read_file; rw [h]; rfl

/-- Witness instantiating `C6_read_file_behaviour` on all four shapes
of the fixture filesystem `fs0`. -/
theorem C6_read_file_behaviour_witness :
    read_file fs0 "missing.txt" = .error (.mm (ValidationError
        ("File does not exist: " ++ "missing.txt") (some "file_path")))
    ∧ read_file fs0 "d" = .error (.mm (ValidationError
        ("Path is not a file: " ++ "d") (some "file_path")))
    ∧ read_file fs0 "a.txt" = .ok (pyUnivNewlines "old")
    ∧ read_file fs0 "locked.txt" =
        .error (.permissionError ("Permission denied: " ++ "locked.txt")) :=
  ⟨(C6_read_file_behaviour fs0 "missing.txt").1 (by decide),
   (C6_read_file_behaviour fs0 "d").2.1 entsC9 (by decide),
   (C6_read_file_behaviour fs0 "a.txt").2.2.1 "old" (by decide),
   (C6_read_file_behaviour fs0 "locked.txt").2.2.2 "secret" (by decide)⟩

/-- C7 counterexample: a whitespace-only message is empty after
trimming, yet `echo_message " "` does not fail validation — it echoes
the message back, because the source tests only `not message`. -/
theorem C7_counterexample :
    (pyStrip " ").data.isEmpty = true ∧ echo_message " " = .ok "Echo:  " :=
  ⟨rfl, rfl⟩

/-- C7 amended: `greet_user` and `send_email` reject values that are
empty or whitespace-only after trimming with a `ValidationError`
carrying the field name, before any side effect (the `send_email`
outcome is independent of the service oracle); `echo_message` rejects
only the genuinely empty string and echoes every non-empty message,
including whitespace-only ones. -/
theorem C7_required_trimmed_nonempty :
    (∀ name : String, (pyStrip name).data.isEmpty = true →
        greet_user name = .error (.mm (ValidationError "Name cannot be empty" (some "name"))))
    ∧ (∀ (svc : String → String → String → Except PyExc EmailJson)
          (toAddr subject body : String) (elaborate : Bool),
        (pyStrip toAddr).data.isEmpty = true →
        send_email svc toAddr subject body elaborate = .error (.mm
          (ValidationError "Recipient email address is required" (some "to"))))
    ∧ (∀ (svc : String → String → String → Except PyExc EmailJson)
          (toAddr subject body : String) (elaborate : Bool),
        (pyStrip toAddr).data.isEmpty = false →
        (pyStrip subject).data.isEmpty = true →
        send_email svc toAddr subject body elaborate = .error (.mm
          (ValidationError "Email subject is required" (some "subject"))))
    ∧ (∀ (svc : String → String → String → Except PyExc EmailJson)
          (toAddr subject body : String) (elaborate : Bool),
        (pyStrip toAddr).data.isEmpty = false →
        (pyStrip subject).data.isEmpty = false →
        (pyStrip body).data.isEmpty = true →
        send_email svc toAddr subject body elaborate = .error (.mm
          (ValidationError "Email body is required" (some "body"))))
    ∧ echo_message "" = .error (.mm (ValidationError "Message cannot be empty" (some "message")))
    ∧ (∀ message : String, message.data.isEmpty = false →
        echo_message message = .ok ("Echo: " ++ message)) := by
  refine ⟨?_, ?_, ?_, ?_, rfl, ?_⟩
  · intro name h
    unfold greet_user
    simp [h]
  · intro svc toAddr subject body elaborate h
    unfold send_email
    simp [h]
  · intro svc toAddr subject body elaborate h1 h2
    have h0 : toAddr.data.isEmpty = false := data_isEmpty_false_of_pyStrip _ h1
    unfold send_email
    simp [h0, h1, h2]
  · intro svc toAddr subject body elaborate h1 h2 h3
    have h0 : toAddr.data.isEmpty = false := data_isEmpty_false_of_pyStrip _ h1
    have h0s : subject.data.isEmpty = false := data_isEmpty_false_of_pyStrip _ h2
    unfold send_email
    simp [h0, h1, h0s, h2, h3]
  · intro message h
    unfold echo_message
    simp [h]

/-- Witness instantiating each part of `C7_required_trimmed_nonempty`
at concrete inputs. -/
theorem C7_required_trimmed_nonempty_witness :
    greet_user " " = .error (.mm (ValidationError "Name cannot be empty" (some "name")))
    ∧ send_email svc0 "" "s" "b" true = .error (.mm
        (ValidationError "Recipient email address is required" (some "to")))
    ∧ send_email svc0 "u@e.co" " " "b" true = .error (.mm
        (ValidationError "Email subject is required" (some "subject")))
    ∧ send_email svc0 "u@e.co" "s" "\t" true = .error (.mm
        (ValidationError "Email body is required" (some "body")))
    ∧ echo_message "" = .error (.mm (ValidationError "Message cannot be empty" (some "message")))
    ∧ echo_message " " = .ok ("Echo: " ++ " ") :=
  ⟨C7_required_trimmed_nonempty.1 " " (by decide),
   C7_required_trimmed_nonempty.2.1 svc0 "" "s" "b" true (by decide),
   C7_required_trimmed_nonempty.2.2.1 svc0 "u@e.co" " " "b" true (by decide) (by decide),
   C7_required_trimmed_nonempty.2.2.2.1 svc0 "u@e.co" "s" "\t" true (by decide) (by decide) (by decide),
   C7_required_trimmed_nonempty.2.2.2.2.1,
   C7_required_trimmed_nonempty.2.2.2.2.2 " " (by decide)⟩

/-- C9: for every directory in the filesystem, `list_directory` with
`include_hidden=false` returns no entry whose name starts with a dot,
with `include_hidden=true` returns every entry (a permutation of the
whole `iterdir` snapshot), and in both cases the result is sorted
ascending by name. -/
theorem C9_list_directory (fs : FS) (p : String) (entries : List DirEntry)
    (h : fs.lookup p = some (.dir entries)) :
    (∀ L, list_directory fs p false = .ok L →
        ∀ it ∈ L, pyStartsWith it.name "." = false)
    ∧ (∀ L, list_directory fs p true = .ok L →
        (L.Perm (entries.map toItem) ∧ ∀ e ∈ entries, toItem e ∈ L))
    ∧ (∀ (hidden : Bool) (L : List Item), list_directory fs p hidden = .ok L →
        L.Pairwise (fun a b => itemLe a b = true)) := by
  refine ⟨?_, ?_, ?_⟩
  · intro L hL it hit
    unfold list_directory at hL
    rw [h, Except.ok.injEq] at hL
    subst hL
    rw [(pySortBy_perm itemLe _).mem_iff] at hit
    obtain ⟨e, he, rfl⟩ := List.mem_map.mp hit
    have hkeep := (List.mem_filter.mp he).2
    simp only [Bool.false_or, Bool.not_eq_true'] at hkeep
    simpa [toItem] using hkeep
  · intro L hL
    unfold list_directory at hL
    rw [h, Except.ok.injEq] at hL
    subst hL
    have hfil : entries.filter (fun e => true || !(pyStartsWith e.name ".")) = entries := by
      simp
    constructor
    · rw [hfil]
      exact pySortBy_perm _ _
    · intro e he
      rw [(pySortBy_perm itemLe _).mem_iff, hfil]
      exact List.mem_map_of_mem toItem he
  · intro hidden L hL
    unfold list_directory at hL
    rw [h, Except.ok.injEq] at hL
    subst hL
    exact pySortBy_pairwise itemLe itemLe_trans itemLe_total _

/-- Witness instantiating `C9_list_directory` on the fixture directory
`d` of `fs0`, whose snapshot holds a hidden file and two visible files
out of name order. -/
theorem C9_list_directory_witness :
    (∀ it ∈ ([{ name := "a.txt", path := "d/a.txt", is_file := true,
                is_directory := false, size := some 3, modified := 30 },
              { name := "b.txt", path := "d/b.txt", is_file := true,
                is_directory := false, size := some 2, modified := 20 }] : List Item),
        pyStartsWith it.name "." = false)
    ∧ toItem ⟨".hidden", "d/.hidden", true, false, 1, 10⟩ ∈
        ([{ name := ".hidden", path := "d/.hidden", is_file := true,
            is_directory := false, size := some 1, modified := 10 },
          { name := "a.txt", path := "d/a.txt", is_file := true,
            is_directory := false, size := some 3, modified := 30 },
          { name := "b.txt", path := "d/b.txt", is_file := true,
            is_directory := false, size := some 2, modified := 20 }] : List Item)
    ∧ List.Pairwise (fun a b => itemLe a b = true)
        ([{ name := ".hidden", path := "d/.hidden", is_file := true,
            is_directory := false, size := some 1, modified := 10 },
          { name := "a.txt", path := "d/a.txt", is_file := true,
            is_directory := false, size := some 3, modified := 30 },
          { name := "b.txt", path := "d/b.txt", is_file := true,
            is_directory := false, size := some 2, modified := 20 }] : List Item) := by
  have h := C9_list_directory fs0 "d" entsC9 (by decide)
  exact ⟨h.1 _ (by decide),
         (h.2.1 _ (by decide)).2 ⟨".hidden", "d/.hidden", true, false, 1, 10⟩ (by decide),
         h.2.2 true _ (by decide)⟩

/-- Errors of `_validate_emails` always carry field `attendees`. -/
theorem _validate_emails_error_field (l : List String) (e : PyExc)
    (h : _validate_emails l = .error e) :
    ∃ m, e = .mm (ValidationError m (some "attendees")) := by
  induction l with
  | nil => cases h
  | cons email rest ih =>
    unfold _validate_emails at h
    by_cases h1 : (email.data.isEmpty || (pyStrip email).data.isEmpty) = true
    · rw [if_pos h1] at h
      exact ⟨"Attendee email must be a non-empty string", (Except.error.inj h).symm⟩
    · rw [if_neg h1] at h
      by_cases h2 : (!(emailMatch (pyStrip email))) = true
      · rw [if_pos h2] at h
        exact ⟨"Invalid attendee email format", (Except.error.inj h).symm⟩
      · rw [if_neg h2] at h
        cases hrec : _validate_emails rest with
        | ok cleaned => rw [hrec] at h; cases h
        | error e2 =>
            rw [hrec] at h
            have he2 : e2 = e := Except.error.inj h
            subst he2
            exact ih hrec

/-- Wrapped service results are never validation errors: a success is
passed through and a failure becomes a generic `MacroManError` whose
code is `GENERIC_ERROR`. -/
theorem not_validationErrOn_wrapSvcErr {α : Type} (pre : String)
    (r : Except PyExc α) (f : String) :
    ¬ isValidationErrOn (wrapSvcErr pre r) f := by
  cases r with
  | ok j => exact fun h => h
  | error e =>
      intro h
      have hc : "GENERIC_ERROR" = "VALIDATION_ERROR" := h.1
      exact absurd hc (by decide)

/-- C8 counterexample: the date-time string with a leading space does
not match the pattern, yet `list_events` does not fail validation on it
— the code matches the TRIMMED string against `iso_like`, so the call
proceeds to the service. -/
theorem C8_counterexample :
    isoLikeMatch " 2025-10-20T00:00:00Z" = false
    ∧ list_events svcCal0 " 2025-10-20T00:00:00Z" "2025-10-27T23:59:59Z" none none
        = .ok "resp" := by
  refine ⟨by decide, by decide⟩

/-- C8 amended: the `iso_like` check applies to the trimmed string.
For `list_events` (fields `timeMin`, `timeMax`) and `schedule_meet`
(fields `start`, `end`, once `title` passes its own check), a string
whose trimmed form does not match the pattern fails validation on the
corresponding field, and when both trimmed forms match, the call never
fails validation on those fields. -/
theorem C8_iso_datetime_validation :
    (∀ (svc : ListEventsPayload → Except PyExc CalJson) (timeMin timeMax : String)
        (mr : Option Int) (q : Option String),
      ((pyStrip timeMin).data.isEmpty = true →
        isValidationErrOn (list_events svc timeMin timeMax mr q) "timeMin")
      ∧ ((pyStrip timeMax).data.isEmpty = false →
          isoLikeMatch (pyStrip timeMin) = false →
          isValidationErrOn (list_events svc timeMin timeMax mr q) "timeMin")
      ∧ (isoLikeMatch (pyStrip timeMin) = true →
          isoLikeMatch (pyStrip timeMax) = false →
          isValidationErrOn (list_events svc timeMin timeMax mr q) "timeMax")
      ∧ (isoLikeMatch (pyStrip timeMin) = true →
          isoLikeMatch (pyStrip timeMax) = true →
          ¬ isValidationErrOn (list_events svc timeMin timeMax mr q) "timeMin"
          ∧ ¬ isValidationErrOn (list_events svc timeMin timeMax mr q) "timeMax"))
    ∧ (∀ (svc : MeetPayload → Except PyExc CalJson) (title : String)
        (descr : Option String) (start endT : String) (tz : Option String)
        (atts : Option (List String)) (sendUpd : Option String),
      (pyStrip title).data.isEmpty = false →
      (((pyStrip start).data.isEmpty = true →
          isValidationErrOn
            (schedule_meet svc title descr start endT tz atts sendUpd) "start")
        ∧ ((pyStrip endT).data.isEmpty = false →
            isoLikeMatch (pyStrip start) = false →
            isValidationErrOn
              (schedule_meet svc title descr start endT tz atts sendUpd) "start")
        ∧ (isoLikeMatch (pyStrip start) = true →
            isoLikeMatch (pyStrip endT) = false →
            isValidationErrOn
              (schedule_meet svc title descr start endT tz atts sendUpd) "end")
        ∧ (isoLikeMatch (pyStrip start) = true →
            isoLikeMatch (pyStrip endT) = true →
            ¬ isValidationErrOn
                (schedule_meet svc title descr start endT tz atts sendUpd) "start"
            ∧ ¬ isValidationErrOn
                (schedule_meet svc title descr start endT tz atts sendUpd) "end"))) := by
  constructor
  · intro svc timeMin timeMax mr q
    refine ⟨?_, ?_, ?_, ?_⟩
    · intro h
      simp [list_events, h, isValidationErrOn, ValidationError]
    · intro hmax hiso
      by_cases hmin : (pyStrip timeMin).data.isEmpty = true
      · simp [list_events, hmin, isValidationErrOn, ValidationError]
      · rw [Bool.not_eq_true] at hmin
        have h0 : timeMin.data.isEmpty = false := data_isEmpty_false_of_pyStrip _ hmin
        have h0x : timeMax.data.isEmpty = false := data_isEmpty_false_of_pyStrip _ hmax
        simp [list_events, h0, hmin, h0x, hmax, hiso, isValidationErrOn, ValidationError]
    · intro hiso1 hiso2
      have hmin : (pyStrip timeMin).data.isEmpty = false :=
        isoLikeMatch_data_ne_empty _ hiso1
      have h0 : timeMin.data.isEmpty = false := data_isEmpty_false_of_pyStrip _ hmin
      by_cases hmax : (pyStrip timeMax).data.isEmpty = true
      · simp [list_events, h0, hmin, hmax, isValidationErrOn, ValidationError]
      · rw [Bool.not_eq_true] at hmax
        have h0x : timeMax.data.isEmpty = false := data_isEmpty_false_of_pyStrip _ hmax
        simp [list_events, h0, hmin, h0x, hmax, hiso1, hiso2,
          isValidationErrOn, ValidationError]
    · intro hiso1 hiso2
      have hmin : (pyStrip timeMin).data.isEmpty = false :=
        isoLikeMatch_data_ne_empty _ hiso1
      have hmax : (pyStrip timeMax).data.isEmpty = false :=
        isoLikeMatch_data_ne_empty _ hiso2
      have h0 : timeMin.data.isEmpty = false := data_isEmpty_false_of_pyStrip _ hmin
      have h0x : timeMax.data.isEmpty = false := data_isEmpty_false_of_pyStrip _ hmax
      by_cases hmr : (match mr with
          | some n => decide (n ≤ 0)
          | none => false) = true
      · simp [list_events, h0, hmin, h0x, hmax, hiso1, hiso2, hmr,
          isValidationErrOn, ValidationError]
      · rw [Bool.not_eq_true] at hmr
        simp only [list_events, h0, hmin, h0x, hmax, hiso1, hiso2, hmr,
          Bool.or_self, Bool.or_false, Bool.false_or, Bool.not_true,
          Bool.not_false, Bool.false_eq_true, if_false]
        exact ⟨not_validationErrOn_wrapSvcErr _ _ _,
               not_validationErrOn_wrapSvcErr _ _ _⟩
  · intro svc title descr start endT tz atts sendUpd htitle
    have ht0 : title.data.isEmpty = false := data_isEmpty_false_of_pyStrip _ htitle
    refine ⟨?_, ?_, ?_, ?_⟩
    · intro h
      simp [schedule_meet, ht0, htitle, h, isValidationErrOn, ValidationError]
    · intro hend hiso
      by_cases hst : (pyStrip start).data.isEmpty = true
      · simp [schedule_meet, ht0, htitle, hst, isValidationErrOn, ValidationError]
      · rw [Bool.not_eq_true] at hst
        have h0 : start.data.isEmpty = false := data_isEmpty_false_of_pyStrip _ hst
        have h0e : endT.data.isEmpty = false := data_isEmpty_false_of_pyStrip _ hend
        simp [schedule_meet, ht0, htitle, h0, hst, h0e, hend, hiso,
          isValidationErrOn, ValidationError]
    · intro hiso1 hiso2
      have hst : (pyStrip start).data.isEmpty = false :=
        isoLikeMatch_data_ne_empty _ hiso1
      have h0 : start.data.isEmpty = false := data_isEmpty_false_of_pyStrip _ hst
      by_cases hend : (pyStrip endT).data.isEmpty = true
      · simp [schedule_meet, ht0, htitle, h0, hst, hend,
          isValidationErrOn, ValidationError]
      · rw [Bool.not_eq_true] at hend
        have h0e : endT.data.isEmpty = false := data_isEmpty_false_of_pyStrip _ hend
        simp [schedule_meet, ht0, htitle, h0, hst, h0e, hend, hiso1, hiso2,
          isValidationErrOn, ValidationError]
    · intro hiso1 hiso2
      have hst : (pyStrip start).data.isEmpty = false :=
        isoLikeMatch_data_ne_empty _ hiso1
      have hend : (pyStrip endT).data.isEmpty = false :=
        isoLikeMatch_data_ne_empty _ hiso2
      have h0 : start.data.isEmpty = false := data_isEmpty_false_of_pyStrip _ hst
      have h0e : endT.data.isEmpty = false := data_isEmpty_false_of_pyStrip _ hend
      by_cases hsu : (match sendUpd with
          | some s => !(["all", "externalOnly", "none"].contains s)
          | none => false) = true
      · simp only [schedule_meet, ht0, htitle, h0, hst, h0e, hend, hiso1, hiso2,
          Bool.or_self, Bool.or_false, Bool.false_or, Bool.not_true,
          Bool.false_eq_true, if_false]
        rw [hsu]
        simp [isValidationErrOn, ValidationError]
      · rw [Bool.not_eq_true] at hsu
        simp only [schedule_meet, ht0, htitle, h0, hst, h0e, hend, hiso1, hiso2,
          hsu, Bool.or_self, Bool.or_false, Bool.false_or, Bool.not_true,
          Bool.not_false, Bool.false_eq_true, if_false]
        cases atts with
        | none =>
            exact ⟨not_validationErrOn_wrapSvcErr _ _ _,
                   not_validationErrOn_wrapSvcErr _ _ _⟩
        | some l =>
            by_cases hlen : (l.length == 0) = true
            · simp [hlen, isValidationErrOn, ValidationError]
            · rw [Bool.not_eq_true] at hlen
              simp only [hlen, Bool.false_eq_true, if_false]
              cases hval : _validate_emails l with
              | error e =>
                  obtain ⟨m, rfl⟩ := _validate_emails_error_field l e hval
                  simp [hval, isValidationErrOn, ValidationError]
              | ok cleaned =>
                  simp only [hval]
                  exact ⟨not_validationErrOn_wrapSvcErr _ _ _,
                         not_validationErrOn_wrapSvcErr _ _ _⟩

/-- Witness instantiating `C8_iso_datetime_validation` at concrete
date-time strings for both tools. -/
theorem C8_iso_datetime_validation_witness :
    isValidationErrOn
      (list_events svcCal0 "2025-13-99" "2025-10-27T23:59:59Z" none none) "timeMin"
    ∧ isValidationErrOn
        (list_events svcCal0 "2025-10-20T00:00:00Z" "later" none none) "timeMax"
    ∧ ¬ isValidationErrOn
        (list_events svcCal0 "2025-10-20T00:00:00Z" "2025-10-27T23:59:59Z" none none)
        "timeMin"
    ∧ isValidationErrOn
        (schedule_meet svcMeet0 "Sync" none "soon" "2025-10-21T10:30:00Z"
          none none none) "start"
    ∧ isValidationErrOn
        (schedule_meet svcMeet0 "Sync" none "2025-10-21T10:00:00Z" "2025-10-21"
          none none none) "end" := by
  refine ⟨?_, ?_, ?_, ?_, ?_⟩
  · exact (C8_iso_datetime_validation.1 svcCal0 "2025-13-99" "2025-10-27T23:59:59Z"
      none none).2.1 (by decide) (by decide)
  · exact (C8_iso_datetime_validation.1 svcCal0 "2025-10-20T00:00:00Z" "later"
      none none).2.2.1 (by decide) (by decide)
  · exact ((C8_iso_datetime_validation.1 svcCal0 "2025-10-20T00:00:00Z"
      "2025-10-27T23:59:59Z" none none).2.2.2 (by decide) (by decide)).1
  · exact ((C8_iso_datetime_validation.2 svcMeet0 "Sync" none "soon"
      "2025-10-21T10:30:00Z" none none none) (by decide)).2.1 (by decide) (by decide)
  · exact ((C8_iso_datetime_validation.2 svcMeet0 "Sync" none "2025-10-21T10:00:00Z"
      "2025-10-21" none none none) (by decide)).2.2.1 (by decide) (by decide)

set_option maxRecDepth 8192 in
/-- C1 counterexample: for the three-argument call of the claim (whose
`elaborate` parameter defaults to True in the source), the scenario
backend `svc0` answers HTTP 200 with success and messageId `m1`, and
the result does carry `success`, `messageId`, the trimmed recipient and
subject — but `body_length` is the length of the ELABORATED body (231),
not the length of the supplied body `"Hello"` (5). -/
theorem C1_counterexample :
    (send_email svc0 "user@example.com" "Hi" "Hello" true).map
        (fun r => (r.success, r.messageId, r.recipient, r.subject)) =
      .ok (true, some "m1", "user@example.com", "Hi")
    ∧ (send_email svc0 "user@example.com" "Hi" "Hello" true).map
        (fun r => r.body_length) ≠ .ok "Hello".length := by
  refine ⟨by decide, by decide⟩

/-- C1 amended: with valid inputs and a backend answering HTTP 200 with
`success = true` and `messageId = m`, `send_email` returns success with
`messageId = m`, the trimmed recipient and subject, and `body_length`
equal to the length of the body actually sent: the elaborated body when
`elaborate` is true (the default), the trimmed supplied body when
false. -/
theorem C1_send_email_success_fields
    (svc : String → String → String → Except PyExc EmailJson)
    (toAddr subject body : String) (elaborate : Bool) (j : EmailJson) (m eb : String)
    (hto : (pyStrip toAddr).data.isEmpty = false)
    (hsubject : (pyStrip subject).data.isEmpty = false)
    (hbody : (pyStrip body).data.isEmpty = false)
    (hmail : emailMatch (pyStrip toAddr) = true)
    (heb : elaborate_email_body (pyStrip body) (pyStrip subject) = .ok eb)
    (hsvc : ∀ b, svc (pyStrip toAddr) (pyStrip subject) b = .ok j)
    (hjs : j.success = some true) (hjm : j.messageId = some m) :
    send_email svc toAddr subject body elaborate = .ok
      { success := true
        message := j.message.getD "Email sending completed"
        messageId := some m
        recipient := pyStrip toAddr
        subject := pyStrip subject
        body_length := (if elaborate then eb else pyStrip body).length
        elaborated := elaborate
        details := j } := by
  have h1 : toAddr.data.isEmpty = false := data_isEmpty_false_of_pyStrip _ hto
  have h2 : subject.data.isEmpty = false := data_isEmpty_false_of_pyStrip _ hsubject
  have h3 : body.data.isEmpty = false := data_isEmpty_false_of_pyStrip _ hbody
  cases elaborate with
  | true =>
      simp [send_email, h1, hto, h2, hsubject, h3, hbody, hmail, heb, hsvc,
        hjs, hjm]
  | false =>
      simp [send_email, h1, hto, h2, hsubject, h3, hbody, hmail, hsvc, hjs, hjm]

set_option maxRecDepth 8192 in
/-- Witness instantiating `C1_send_email_success_fields` at the
scenario inputs of the claim with `elaborate=false`, where the sent
body is the supplied `"Hello"` (length 5). -/
theorem C1_send_email_success_fields_witness :
    send_email svc0 "user@example.com" "Hi" "Hello" false = .ok
      { success := true
        message := "Email sending completed"
        messageId := some "m1"
        recipient := pyStrip "user@example.com"
        subject := pyStrip "Hi"
        body_length := (if false then
            "I hope this email finds you well.\n\nI wanted to reach out and connect with you. Hello (Subject: Hi) I hope we can connect and discuss potential opportunities for collaboration.\n\nI look forward to hearing from you soon.\n\nBest regards"
          else pyStrip "Hello").length
        elaborated := false
        details := { success := some true, message := none, messageId := some "m1" } } :=
  C1_send_email_success_fields svc0 "user@example.com" "Hi" "Hello" false
    { success := some true, message := none, messageId := some "m1" } "m1"
    "I hope this email finds you well.\n\nI wanted to reach out and connect with you. Hello (Subject: Hi) I hope we can connect and discuss potential opportunities for collaboration.\n\nI look forward to hearing from you soon.\n\nBest regards"
    (by decide) (by decide) (by decide) (by decide) (by decide)
    (fun b => rfl) rfl rfl

/-- C2 counterexample: the error object a failing tool invocation
surfaces is `\x7bsuccess, error, message\x7d` — only strings, no
kind/code discriminator and no field name: a bad-input failure and a
generic failure with the same message map to IDENTICAL payloads even
though their internal `error_code`s differ, so the caller cannot
distinguish the kinds from the payload. -/
theorem C2_counterexample :
    _send_email_tool svc0 "" "Hi" "Hello" false =
      .err { success := false, error := "Recipient email address is required",
             message := "Failed to send email" }
    ∧ sendEmailFailurePayload (.mm (ValidationError "boom" (some "to"))) =
        sendEmailFailurePayload (.mm (MacroManError "boom"))
    ∧ (ValidationError "boom" (some "to")).error_code ≠ (MacroManError "boom").error_code
    ∧ scheduleMeetFailurePayload (.mm (ValidationError "boom" (some "start"))) =
        scheduleMeetFailurePayload (.mm (MacroManError "boom")) := by
  refine ⟨by decide, rfl, by decide, rfl⟩

/-- C2 amended: every failing `_send_email` invocation surfaces the
payload `\x7bsuccess: false, error: str(e), message: "Failed to send
email"\x7d`; the payload is a function of `str(e)` alone, dropping the
`error_code` and `field` the internal exceptions carry, so failure
kinds are distinguishable only insofar as their message texts
differ. -/
theorem C2_tool_failure_payload
    (svc : String → String → String → Except PyExc EmailJson)
    (toAddr subject body : String) (elaborate : Bool) (e : PyExc)
    (h : send_email svc toAddr subject body elaborate = .error e) :
    _send_email_tool svc toAddr subject body elaborate =
      .err { success := false, error := e.str, message := "Failed to send email" }
    ∧ (∀ e2 : PyExc, PyExc.str e2 = PyExc.str e →
        sendEmailFailurePayload e2 = sendEmailFailurePayload e) := by
  constructor
  · unfold _send_email_tool
    rw [h]
    rfl
  · intro e2 h2
    unfold sendEmailFailurePayload
    rw [h2]

/-- Witness instantiating `C2_tool_failure_payload` at a concrete
failing invocation, together with an equal-message generic error
yielding the identical payload. -/
theorem C2_tool_failure_payload_witness :
    _send_email_tool svc0 "" "Hi" "Hello" false =
      .err { success := false,
             error := PyExc.str (.mm (ValidationError
               "Recipient email address is required" (some "to"))),
             message := "Failed to send email" }
    ∧ sendEmailFailurePayload (.mm (MacroManError "Recipient email address is required")) =
        sendEmailFailurePayload (.mm (ValidationError
          "Recipient email address is required" (some "to"))) :=
  have h := C2_tool_failure_payload svc0 "" "Hi" "Hello" false
    (.mm (ValidationError "Recipient email address is required" (some "to")))
    (by decide)
  ⟨h.1, h.2 (.mm (MacroManError "Recipient email address is required")) rfl⟩

end MacroManSpec
